import Mathlib

/-
  Verification of the vanity-wallet search engine
  (src/utils/wallet-generator.js, src/utils/worker.js).

  The JavaScript code is shallowly embedded:
  * strings are Lean `String`s (the code only ever handles ASCII/Base58 text,
    so `String.toLower` models `String.prototype.toLowerCase` and
    `String.trim` models `String.prototype.trim` faithfully on the inputs
    that occur);
  * JS numbers that the code uses as counters/sizes are `Nat`;
  * the opaque keypair-generation primitive is modelled as a deterministic
    stream `gen : Nat → Keypair` supplying the n-th generated keypair, and
    the unbounded generate-test loops take an explicit fuel argument and
    return `none`/no messages when the fuel runs out before a match;
  * `throw new Error(...)` becomes `Except.error`;
  * the worker/coordinator message traffic becomes explicit lists of
    messages and a fold of the coordinator's event handler over them.
-/

namespace WalletCreate

/-- One character of the regex class `[1-9A-HJ-NP-Za-km-z]` used by
`isValidPattern` (wallet-generator.js line 499).  The six regex ranges are
code-point ranges: `1`-`9` is 49-57, `A`-`H` is 65-72, `J`-`N` is 74-78,
`P`-`Z` is 80-90, `a`-`k` is 97-107, `m`-`z` is 109-122. -/
def isBase58Char (c : Char) : Bool :=
  (49 ≤ c.toNat && c.toNat ≤ 57) || (65 ≤ c.toNat && c.toNat ≤ 72) ||
  (74 ≤ c.toNat && c.toNat ≤ 78) || (80 ≤ c.toNat && c.toNat ≤ 90) ||
  (97 ≤ c.toNat && c.toNat ≤ 107) || (109 ≤ c.toNat && c.toNat ≤ 122)

/-- The 58-character Base58 alphabet named by the spec. -/
def base58Alphabet : String :=
  "123456789ABCDEFGHJKLMNPQRSTUVWXYZabcdefghijkmnopqrstuvwxyz"

/-- `isValidPattern` (wallet-generator.js lines 498-501):
`/^[1-9A-HJ-NP-Za-km-z]+$/.test(pattern)`, i.e. the character sequence of
the string is non-empty and every character is in the class. -/
def isValidPattern (pattern : String) : Bool :=
  !pattern.data.isEmpty && pattern.data.all isBase58Char

/-- ASCII lower-casing of one character, as `String.prototype.toLowerCase`
acts on the Base58 range (A-Z, code points 65-90, map to a-z). -/
def jsToLowerChar (c : Char) : Char :=
  if 65 ≤ c.toNat && c.toNat ≤ 90 then Char.ofNat (c.toNat + 32) else c

/-- `s.toLowerCase()` of JavaScript, on the character sequence. -/
def jsToLower (s : String) : String :=
  ⟨s.data.map jsToLowerChar⟩

/-- `s.startsWith(p)` of JavaScript: `p`'s character sequence is an initial
segment of `s`'s. -/
def jsStartsWith (s p : String) : Bool :=
  p.data.isPrefixOf s.data

/-- `s.endsWith(p)` of JavaScript: `p`'s character sequence is a final
segment of `s`'s. -/
def jsEndsWith (s p : String) : Bool :=
  p.data.isSuffixOf s.data

/-- The whitespace characters `String.prototype.trim` strips, restricted to
the ASCII ones that can occur in this program's inputs. -/
def jsWhitespaceChar (c : Char) : Bool :=
  c == ' ' || c == '\t' || c == '\n' || c == '\r'

/-- `s.trim()` of JavaScript: strip leading and trailing whitespace. -/
def jsTrim (s : String) : String :=
  ⟨((s.data.dropWhile jsWhitespaceChar).reverse.dropWhile jsWhitespaceChar).reverse⟩

/-- `matchesPattern` (wallet-generator.js lines 48-53, duplicated verbatim
in worker.js lines 29-34). -/
def matchesPattern (address pattern : String) (caseSensitive : Bool) : Bool :=
  if !caseSensitive then
    jsStartsWith (jsToLower address) (jsToLower pattern)
  else
    jsStartsWith address pattern

/-- Substring containment on character lists: `needle` occurs contiguously
inside `haystack`.  Models `String.prototype.includes`. -/
def hasSubstr (needle haystack : List Char) : Bool :=
  needle.isPrefixOf haystack ||
  match haystack with
  | [] => false
  | _ :: t => hasSubstr needle t

/-- `address.includes(pattern)` of JavaScript. -/
def includes (address pattern : String) : Bool :=
  hasSubstr pattern.data address.data

/-- `containsPattern` (wallet-generator.js lines 62-67, duplicated verbatim
in worker.js lines 39-44). -/
def containsPattern (address pattern : String) (caseSensitive : Bool) : Bool :=
  if !caseSensitive then
    includes (jsToLower address) (jsToLower pattern)
  else
    includes address pattern

/-- The presence test `p && p.trim().length > 0` applied to the start and
end patterns (wallet-generator.js lines 79-80, 189-190, 404-405 and
worker.js lines 51-52; for a string argument the `p &&` guard is JS
truthiness, i.e. non-emptiness). -/
def patternPresent (s : String) : Bool :=
  s != "" && decide (0 < (jsTrim s).length)

/-- `matchesStartEndPattern` (wallet-generator.js lines 77-101, duplicated
verbatim in worker.js lines 49-73). -/
def matchesStartEndPattern (address startPattern endPattern : String)
    (caseSensitive : Bool) : Bool :=
  let hasStartPattern := patternPresent startPattern
  let hasEndPattern := patternPresent endPattern
  if !hasStartPattern && !hasEndPattern then
    true
  else if !caseSensitive then
    let lowerAddress := jsToLower address
    let lowerStart := if hasStartPattern then jsToLower startPattern else ""
    let lowerEnd := if hasEndPattern then jsToLower endPattern else ""
    (!hasStartPattern || jsStartsWith lowerAddress lowerStart) &&
    (!hasEndPattern || jsEndsWith lowerAddress lowerEnd)
  else
    (!hasStartPattern || jsStartsWith address startPattern) &&
    (!hasEndPattern || jsEndsWith address endPattern)

/-- `estimateAttempts` (wallet-generator.js lines 509-520).  `Math.pow` on
JS numbers is modelled as exact natural-number exponentiation; `58 / 2`
is exact (29) in both worlds. -/
def estimateAttempts (pattern : String) (caseSensitive : Bool) : Nat :=
  let base58Length := 58
  let patternLength := pattern.length
  if !caseSensitive then
    (base58Length / 2) ^ patternLength
  else
    base58Length ^ patternLength

/-- A generated keypair, modelled by the two Base58 texts the code derives
from it (`keypair.publicKey.toBase58()` and `bs58.encode(keypair.secretKey)`,
both opaque already-correct primitives per the spec). -/
structure Keypair where
  publicKeyBase58 : String
  secretKeyBase58 : String
deriving DecidableEq, Repr

/-- `getAddressFromKeypair` (wallet-generator.js lines 18-20):
`keypair.publicKey.toBase58()`. -/
def getAddressFromKeypair (keypair : Keypair) : String :=
  keypair.publicKeyBase58

/-- `getPrivateKeyFromKeypair` (wallet-generator.js lines 27-29):
`bs58.encode(keypair.secretKey)`. -/
def getPrivateKeyFromKeypair (keypair : Keypair) : String :=
  keypair.secretKeyBase58

/-- The object returned by the single-threaded generators (the transient
`keypair` field included). -/
structure WalletResult where
  address : String
  privateKey : String
  publicKey : String
  attempts : Nat
  keypair : Keypair
deriving DecidableEq, Repr

/-- One iteration of the single-threaded do-while body (wallet-generator.js
lines 120-128, identical in the three generators): generate, derive the
address, increment the counter, fire the progress callback when the counter
is a multiple of 10000 (and a callback was supplied), then evaluate the
while-condition.  Returns the progress reports fired this iteration and
`some` result when the match test succeeds. -/
def singleLoopStep (matcher : String → Bool) (hasCallback : Bool)
    (kp : Keypair) (attempts : Nat) : List Nat × Option WalletResult :=
  let address := getAddressFromKeypair kp
  let a := attempts + 1
  let reports := if hasCallback && a % 10000 == 0 then [a] else []
  if matcher address then
    (reports, some { address := address,
                     privateKey := getPrivateKeyFromKeypair kp,
                     publicKey := kp.publicKeyBase58,
                     attempts := a,
                     keypair := kp })
  else
    (reports, none)

/-- The single-threaded do-while loop, with fuel: runs `singleLoopStep` on
successive keypairs of the stream until a match or fuel exhaustion,
collecting all progress reports. -/
def runLoop (matcher : String → Bool) (hasCallback : Bool)
    (gen : Nat → Keypair) : Nat → Nat → List Nat × Option WalletResult
  | 0, _ => ([], none)
  | fuel + 1, attempts =>
    match singleLoopStep matcher hasCallback (gen attempts) attempts with
    | (reports, some r) => (reports, some r)
    | (reports, none) =>
      let rest := runLoop matcher hasCallback gen fuel (attempts + 1)
      (reports ++ rest.1, rest.2)

/-- The construction-time error of `generateVanityWallet` and
`generateVanityWalletContains`. -/
inductive GenError where
  | invalidPatternError
deriving DecidableEq, Repr

/-- `generateVanityWallet` (wallet-generator.js lines 110-137): validate the
pattern, then run the do-while loop with `matchesPattern`. -/
def generateVanityWallet (pattern : String) (caseSensitive hasCallback : Bool)
    (gen : Nat → Keypair) (fuel : Nat) :
    Except GenError (List Nat × Option WalletResult) :=
  if !isValidPattern pattern then
    .error .invalidPatternError
  else
    .ok (runLoop (fun address => matchesPattern address pattern caseSensitive)
          hasCallback gen fuel 0)

/-- `generateVanityWalletContains` (wallet-generator.js lines 146-173):
validate the pattern, then run the do-while loop with `containsPattern`. -/
def generateVanityWalletContains (pattern : String)
    (caseSensitive hasCallback : Bool) (gen : Nat → Keypair) (fuel : Nat) :
    Except GenError (List Nat × Option WalletResult) :=
  if !isValidPattern pattern then
    .error .invalidPatternError
  else
    .ok (runLoop (fun address => containsPattern address pattern caseSensitive)
          hasCallback gen fuel 0)

/-- The construction-time errors of `generateVanityWalletStartEnd` and
`generateVanityWalletStartEndMultiWorker`, one constructor per distinct
`throw new Error(...)` site. -/
inductive StartEndError where
  | emptyDualPattern
  | invalidStartPattern
  | invalidEndPattern
  | patternTooLong
deriving DecidableEq, Repr

/-- The construction-time validation block shared verbatim by
`generateVanityWalletStartEnd` (wallet-generator.js lines 189-210) and
`generateVanityWalletStartEndMultiWorker` (lines 404-425): both-patterns
absent, per-pattern Base58 validity of present patterns (start before
end), then combined length of the present patterns. -/
def validateStartEnd (startPattern endPattern : String) :
    Option StartEndError :=
  let hasStartPattern := patternPresent startPattern
  let hasEndPattern := patternPresent endPattern
  if !hasStartPattern && !hasEndPattern then
    some .emptyDualPattern
  else if hasStartPattern && !isValidPattern startPattern then
    some .invalidStartPattern
  else if hasEndPattern && !isValidPattern endPattern then
    some .invalidEndPattern
  else
    let startLength := if hasStartPattern then startPattern.length else 0
    let endLength := if hasEndPattern then endPattern.length else 0
    if startLength + endLength ≥ 44 then
      some .patternTooLong
    else
      none

/-- `generateVanityWalletStartEnd` (wallet-generator.js lines 183-229):
validation first (any failure throws before the loop starts), then the
do-while loop with `matchesStartEndPattern`. -/
def generateVanityWalletStartEnd (startPattern endPattern : String)
    (caseSensitive hasCallback : Bool) (gen : Nat → Keypair) (fuel : Nat) :
    Except StartEndError (List Nat × Option WalletResult) :=
  match validateStartEnd startPattern endPattern with
  | some e => .error e
  | none =>
    .ok (runLoop
          (fun address =>
            matchesStartEndPattern address startPattern endPattern caseSensitive)
          hasCallback gen fuel 0)

/-- The `workerData` record handed to worker.js. -/
structure WorkerData where
  pattern : String
  startPattern : String
  endPattern : String
  caseSensitive : Bool
  workerId : Nat
  searchMode : String
deriving DecidableEq, Repr

/-- The per-iteration match dispatch of the worker main loop
(worker.js lines 104-111). -/
def workerMatcher (wd : WorkerData) (address : String) : Bool :=
  if wd.searchMode == "startEnd" then
    matchesStartEndPattern address wd.startPattern wd.endPattern wd.caseSensitive
  else if wd.searchMode == "contains" then
    containsPattern address wd.pattern wd.caseSensitive
  else
    matchesPattern address wd.pattern wd.caseSensitive

/-- A message a worker posts to its parent (worker.js lines 114-125 and
129-134): the payload fields the coordinator reads. -/
inductive WorkerMsg where
  | progress (attempts workerId : Nat)
  | success (address privateKey publicKey : String) (attempts workerId : Nat)
deriving DecidableEq, Repr

/-- One iteration of the worker main loop (worker.js lines 97-136):
generate, derive the address, increment the counter, test the match FIRST
(posting the success message and breaking on a match), and only otherwise
post a progress message when the counter is a multiple of 10000.  Returns
the messages posted this iteration and whether the loop breaks. -/
def workerStep (wd : WorkerData) (kp : Keypair) (attempts : Nat) :
    List WorkerMsg × Bool :=
  let address := getAddressFromKeypair kp
  let a := attempts + 1
  if workerMatcher wd address then
    ([.success address (getPrivateKeyFromKeypair kp) kp.publicKeyBase58
        a wd.workerId], true)
  else if a % 10000 == 0 then
    ([.progress a wd.workerId], false)
  else
    ([], false)

/-- The worker main `while (true)` loop, with fuel: the list of all messages
the worker posts, in order. -/
def workerLoop (wd : WorkerData) (gen : Nat → Keypair) :
    Nat → Nat → List WorkerMsg
  | 0, _ => []
  | fuel + 1, attempts =>
    let step := workerStep wd (gen attempts) attempts
    if step.2 then
      step.1
    else
      step.1 ++ workerLoop wd gen fuel (attempts + 1)

/-- An event delivered to the coordinator: either a worker message
(`worker.on('message')`) or a worker error (`worker.on('error')`). -/
inductive WorkerEvent where
  | message (m : WorkerMsg)
  | error (workerId : Nat) (errMsg : String)
deriving DecidableEq, Repr

/-- The value the pooled search resolves with: the winning success message
with the `totalAttempts` field the handler adds to it. -/
structure SuccessOutcome where
  address : String
  privateKey : String
  publicKey : String
  attempts : Nat
  workerId : Nat
  totalAttempts : Nat
deriving DecidableEq, Repr

deriving instance DecidableEq for Except

/-- The coordinator-local state of the pooled searches
(`generateVanityWalletMultiWorker` and its two variants, whose handlers are
identical): the `totalAttempts` and `resolved` closure variables, the
promise settlement (first resolve/reject wins, later ones are no-ops), and
whether the `workers.forEach(w => w.terminate())` broadcast has run. -/
structure CoordState where
  totalAttempts : Nat
  resolved : Bool
  settled : Option (Except String SuccessOutcome)
  terminatedAll : Bool
deriving DecidableEq, Repr

/-- The coordinator state when the workers have just been spawned. -/
def initialCoordState : CoordState :=
  { totalAttempts := 0, resolved := false, settled := none,
    terminatedAll := false }

/-- Settling the promise: a no-op once the promise is already settled. -/
def settle (st : CoordState) (v : Except String SuccessOutcome) : CoordState :=
  match st.settled with
  | some _ => st
  | none => { st with settled := some v }

/-- The coordinator's event handler (wallet-generator.js lines 272-297,
duplicated verbatim at lines 351-376 and 456-481).  `message` handler: if
`resolved`, return; on a success message set `resolved`, terminate all
workers, and resolve with the message extended by
`totalAttempts + message.attempts`; on a progress message add the flat
batch size 10000 to `totalAttempts`.  `error` handler: if not `resolved`,
reject with the error — and nothing else: no terminate, no `resolved`
update. -/
def coordStep (st : CoordState) (ev : WorkerEvent) : CoordState :=
  match ev with
  | .message m =>
    if st.resolved then
      st
    else
      match m with
      | .success address privateKey publicKey attempts workerId =>
        settle { st with resolved := true, terminatedAll := true }
          (.ok { address := address, privateKey := privateKey,
                 publicKey := publicKey, attempts := attempts,
                 workerId := workerId,
                 totalAttempts := st.totalAttempts + attempts })
      | .progress _ _ =>
        { st with totalAttempts := st.totalAttempts + 10000 }
  | .error _ errMsg =>
    if !st.resolved then
      settle st (.error errMsg)
    else
      st

/-- Running the coordinator over a delivered event sequence. -/
def runCoordinator (events : List WorkerEvent) : CoordState :=
  events.foldl coordStep initialCoordState

/-- A sequence of progress messages, one per `(attempts, workerId)` pair. -/
def progressEvents (ps : List (Nat × Nat)) : List WorkerEvent :=
  ps.map fun p => WorkerEvent.message (WorkerMsg.progress p.1 p.2)

/-- `generateVanityWalletStartEndMultiWorker` (wallet-generator.js lines
397-491): the same validation block as `generateVanityWalletStartEnd`,
failing before any worker is spawned, then the coordinator run over the
worker events. -/
def generateVanityWalletStartEndMultiWorker (startPattern endPattern : String)
    (events : List WorkerEvent) : Except StartEndError CoordState :=
  match validateStartEnd startPattern endPattern with
  | some e => .error e
  | none => .ok (runCoordinator events)

/-! ## Theorems -/

/-- Bridge between the regex character class and the spec's explicit
58-character alphabet. -/
theorem isBase58Char_mem_alphabet (c : Char) :
    isBase58Char c = true ↔ c ∈ base58Alphabet.data := by
  constructor
  · intro h
    have h1 : c.toNat < 123 := by
      simp only [isBase58Char, Bool.or_eq_true, Bool.and_eq_true,
        decide_eq_true_eq] at h
      omega
    have h2 : Char.ofNat c.toNat = c := Char.ofNat_toNat c
    have key : ∀ n, n < 123 → isBase58Char (Char.ofNat n) = true →
        Char.ofNat n ∈ base58Alphabet.data := by decide
    have h3 := key c.toNat h1 (by rwa [h2])
    rwa [h2] at h3
  · intro h
    have key : ∀ x ∈ base58Alphabet.data, isBase58Char x = true := by decide
    exact key c h

/-- C3: `isValidPattern(s)` is true iff `s` is non-empty and every character
of `s` is in the 58-character Base58 alphabet; in particular it is false for
the empty string and for any string containing `0`, `O`, `I`, or `l`. -/
theorem isValidPattern_characterization :
    (∀ s : String, isValidPattern s = true ↔
        s ≠ "" ∧ ∀ c ∈ s.data, c ∈ base58Alphabet.data) ∧
    isValidPattern "" = false ∧
    (∀ s : String, ∀ c ∈ s.data,
        (c = '0' ∨ c = 'O' ∨ c = 'I' ∨ c = 'l') → isValidPattern s = false) := by
  have main : ∀ s : String, isValidPattern s = true ↔
      s ≠ "" ∧ ∀ c ∈ s.data, c ∈ base58Alphabet.data := by
    intro s
    have hempty : s ≠ "" ↔ s.data ≠ [] := by
      rw [ne_eq, ne_eq, String.ext_iff]
    rw [hempty]
    unfold isValidPattern
    rw [Bool.and_eq_true, Bool.not_eq_true', List.isEmpty_eq_false,
      List.all_eq_true]
    constructor
    · rintro ⟨h1, h2⟩
      exact ⟨h1, fun c hc => (isBase58Char_mem_alphabet c).1 (h2 c hc)⟩
    · rintro ⟨h1, h2⟩
      exact ⟨h1, fun c hc => (isBase58Char_mem_alphabet c).2 (h2 c hc)⟩
  refine ⟨main, by decide, ?_⟩
  intro s c hc hforbidden
  by_contra hvalid
  rw [Bool.not_eq_false] at hvalid
  have hmem := ((main s).1 hvalid).2 c hc
  rcases hforbidden with rfl | rfl | rfl | rfl <;> revert hmem <;> decide

/-- Witness for C3 at concrete inputs. -/
theorem isValidPattern_characterization_witness :
    isValidPattern "A0B" = false ∧ isValidPattern "abc" = true := by
  refine ⟨isValidPattern_characterization.2.2 "A0B" '0' (by decide) (Or.inl rfl), ?_⟩
  exact (isValidPattern_characterization.1 "abc").2 (by decide)

/-- Counterexample to C2 as stated: with the non-empty pair
(`" "`, `"Z"`) the claim demands the conjunction of the two checks, but the
code treats the whitespace-only start pattern as absent and performs the
pure suffix check, accepting an address that does not start with `" "`. -/
theorem startEnd_nonempty_claim_false :
    (" " : String) ≠ "" ∧ ("Z" : String) ≠ "" ∧
    matchesStartEndPattern "AZ" " " "Z" true = true ∧
    (jsStartsWith "AZ" " " && jsEndsWith "AZ" "Z") = false := by
  decide

/-- Reference predicate spelling out the amended C2: a pattern takes part in
the match exactly when it is non-blank (non-empty after trimming
whitespace); each present pattern contributes its check (case-folded on
both sides when `caseSensitive` is false), absent patterns contribute
nothing, and with both patterns absent every address matches. -/
def startEndSpec (address startPattern endPattern : String)
    (caseSensitive : Bool) : Bool :=
  (if patternPresent startPattern then
     (if caseSensitive then jsStartsWith address startPattern
      else jsStartsWith (jsToLower address) (jsToLower startPattern))
   else true) &&
  (if patternPresent endPattern then
     (if caseSensitive then jsEndsWith address endPattern
      else jsEndsWith (jsToLower address) (jsToLower endPattern))
   else true)

/-- C2 (amended): `matchesStartEndPattern` equals the reference predicate
`startEndSpec` on every input. -/
theorem matchesStartEndPattern_eq_spec (address s e : String) (cs : Bool) :
    matchesStartEndPattern address s e cs = startEndSpec address s e cs := by
  cases hs : patternPresent s <;> cases he : patternPresent e <;> cases cs <;>
    simp [matchesStartEndPattern, startEndSpec, hs, he]

/-- C8: the attempt estimator is exactly exponential in the pattern length,
with base 58 when case-sensitive and base 58/2 = 29 when not. -/
theorem estimateAttempts_formula :
    (∀ pattern : String,
        estimateAttempts pattern true = 58 ^ pattern.length ∧
        estimateAttempts pattern false = 29 ^ pattern.length) ∧
    estimateAttempts "A" true = 58 ∧ estimateAttempts "AB" true = 3364 := by
  refine ⟨fun pattern => ⟨?_, ?_⟩, by decide, by decide⟩ <;> simp [estimateAttempts]

/-- An iteration of the single-threaded do-while body yields a result only
when the matcher accepts the result's address. -/
theorem singleLoopStep_matches (matcher : String → Bool) (cb : Bool)
    (kp : Keypair) (a : Nat) (reports : List Nat) (r : WalletResult)
    (h : singleLoopStep matcher cb kp a = (reports, some r)) :
    matcher r.address = true := by
  unfold singleLoopStep at h
  by_cases hm : matcher (getAddressFromKeypair kp) = true
  · simp only [hm, if_true, Prod.mk.injEq, Option.some.injEq] at h
    obtain ⟨-, h2⟩ := h
    subst h2
    exact hm
  · simp [hm] at h

/-- The single-threaded do-while loop yields a result only when the matcher
accepts the result's address. -/
theorem runLoop_matches (matcher : String → Bool) (cb : Bool)
    (gen : Nat → Keypair) :
    ∀ (fuel a0 : Nat) (r : WalletResult),
      (runLoop matcher cb gen fuel a0).2 = some r → matcher r.address = true := by
  intro fuel
  induction fuel with
  | zero =>
    intro a0 r h
    simp [runLoop] at h
  | succ n ih =>
    intro a0 r h
    rw [runLoop] at h
    rcases hstep : singleLoopStep matcher cb (gen a0) a0 with ⟨ps, o⟩
    rw [hstep] at h
    cases o with
    | some r0 =>
      simp only [Option.some.injEq] at h
      subst h
      exact singleLoopStep_matches matcher cb (gen a0) a0 ps r0 hstep
    | none =>
      simp only [] at h
      exact ih (a0 + 1) r h

/-- A success message posted by a worker iteration carries an address the
worker's matcher accepts. -/
theorem workerStep_success_matches (wd : WorkerData) (kp : Keypair) (a : Nat)
    (address privateKey publicKey : String) (att wid : Nat)
    (h : WorkerMsg.success address privateKey publicKey att wid ∈
      (workerStep wd kp a).1) :
    workerMatcher wd address = true := by
  unfold workerStep at h
  by_cases hm : workerMatcher wd (getAddressFromKeypair kp) = true
  · simp only [hm, if_true, List.mem_singleton, WorkerMsg.success.injEq] at h
    obtain ⟨h1, -, -, -, -⟩ := h
    subst h1
    exact hm
  · simp only [hm] at h
    by_cases h10 : ((a + 1) % 10000 == 0) = true <;> simp [h10] at h

/-- Any success message in a worker run carries an address the worker's
matcher accepts. -/
theorem workerLoop_success_matches (wd : WorkerData) (gen : Nat → Keypair) :
    ∀ (fuel a0 : Nat) (address privateKey publicKey : String) (att wid : Nat),
      WorkerMsg.success address privateKey publicKey att wid ∈
        workerLoop wd gen fuel a0 →
      workerMatcher wd address = true := by
  intro fuel
  induction fuel with
  | zero =>
    intro a0 address privateKey publicKey att wid h
    simp [workerLoop] at h
  | succ n ih =>
    intro a0 address privateKey publicKey att wid h
    rw [workerLoop] at h
    by_cases hstop : (workerStep wd (gen a0) a0).2 = true
    · rw [if_pos hstop] at h
      exact workerStep_success_matches wd (gen a0) a0 address privateKey
        publicKey att wid h
    · rw [if_neg hstop] at h
      rcases List.mem_append.1 h with hin | hin
      · exact workerStep_success_matches wd (gen a0) a0 address privateKey
          publicKey att wid hin
      · exact ih (a0 + 1) address privateKey publicKey att wid hin

/-- C1: every successful run returns only addresses accepted by the
matcher it was started with — `generateVanityWallet` with `matchesPattern`,
`generateVanityWalletContains` with `containsPattern`,
`generateVanityWalletStartEnd` with `matchesStartEndPattern`, and a
worker's success message with the matcher of its `searchMode`. -/
theorem search_results_satisfy_pattern :
    (∀ (pattern : String) (cs cb : Bool) (gen : Nat → Keypair) (fuel : Nat)
        (reports : List Nat) (r : WalletResult),
        generateVanityWallet pattern cs cb gen fuel = .ok (reports, some r) →
        matchesPattern r.address pattern cs = true) ∧
    (∀ (pattern : String) (cs cb : Bool) (gen : Nat → Keypair) (fuel : Nat)
        (reports : List Nat) (r : WalletResult),
        generateVanityWalletContains pattern cs cb gen fuel =
          .ok (reports, some r) →
        containsPattern r.address pattern cs = true) ∧
    (∀ (s e : String) (cs cb : Bool) (gen : Nat → Keypair) (fuel : Nat)
        (reports : List Nat) (r : WalletResult),
        generateVanityWalletStartEnd s e cs cb gen fuel =
          .ok (reports, some r) →
        matchesStartEndPattern r.address s e cs = true) ∧
    (∀ (wd : WorkerData) (gen : Nat → Keypair) (fuel a0 : Nat)
        (address privateKey publicKey : String) (att wid : Nat),
        WorkerMsg.success address privateKey publicKey att wid ∈
          workerLoop wd gen fuel a0 →
        workerMatcher wd address = true) := by
  refine ⟨?_, ?_, ?_, ?_⟩
  · intro pattern cs cb gen fuel reports r h
    unfold generateVanityWallet at h
    by_cases hv : isValidPattern pattern = true
    · rw [hv] at h
      simp only [Bool.not_true, Bool.false_eq_true, if_false, Except.ok.injEq] at h
      exact runLoop_matches _ cb gen fuel 0 r (by rw [h])
    · rw [Bool.not_eq_true] at hv
      rw [hv] at h
      simp at h
  · intro pattern cs cb gen fuel reports r h
    unfold generateVanityWalletContains at h
    by_cases hv : isValidPattern pattern = true
    · rw [hv] at h
      simp only [Bool.not_true, Bool.false_eq_true, if_false, Except.ok.injEq] at h
      exact runLoop_matches _ cb gen fuel 0 r (by rw [h])
    · rw [Bool.not_eq_true] at hv
      rw [hv] at h
      simp at h
  · intro s e cs cb gen fuel reports r h
    unfold generateVanityWalletStartEnd at h
    rcases hval : validateStartEnd s e with _ | err
    · rw [hval] at h
      simp only [Except.ok.injEq] at h
      exact runLoop_matches _ cb gen fuel 0 r (by rw [h])
    · rw [hval] at h
      simp at h
  · exact fun wd gen fuel a0 address privateKey publicKey att wid h =>
      workerLoop_success_matches wd gen fuel a0 address privateKey publicKey
        att wid h

/-- Witness for C1: a run of each searcher over the constant keypair stream
with address `"A1"`, each returning that address, whose matcher indeed
accepts it. -/
theorem search_results_satisfy_pattern_witness :
    matchesPattern "A1" "A" true = true ∧
    containsPattern "A1" "1" true = true ∧
    matchesStartEndPattern "A1" "A" "1" true = true ∧
    workerMatcher
      { pattern := "A", startPattern := "", endPattern := "",
        caseSensitive := true, workerId := 1, searchMode := "startsWith" }
      "A1" = true := by
  refine ⟨?_, ?_, ?_, ?_⟩
  · exact search_results_satisfy_pattern.1 "A" true false
      (fun _ => ⟨"A1", "sk"⟩) 1 []
      { address := "A1", privateKey := "sk", publicKey := "A1",
        attempts := 1, keypair := ⟨"A1", "sk"⟩ } (by decide)
  · exact search_results_satisfy_pattern.2.1 "1" true false
      (fun _ => ⟨"A1", "sk"⟩) 1 []
      { address := "A1", privateKey := "sk", publicKey := "A1",
        attempts := 1, keypair := ⟨"A1", "sk"⟩ } (by decide)
  · exact search_results_satisfy_pattern.2.2.1 "A" "1" true false
      (fun _ => ⟨"A1", "sk"⟩) 1 []
      { address := "A1", privateKey := "sk", publicKey := "A1",
        attempts := 1, keypair := ⟨"A1", "sk"⟩ } (by decide)
  · exact search_results_satisfy_pattern.2.2.2
      { pattern := "A", startPattern := "", endPattern := "",
        caseSensitive := true, workerId := 1, searchMode := "startsWith" }
      (fun _ => ⟨"A1", "sk"⟩) 1 0 "A1" "sk" "A1" 1 1 (by decide)

/-- `generateVanityWalletStartEnd` throws exactly the validation error,
independent of the keypair stream and fuel (so before any iteration). -/
theorem generateVanityWalletStartEnd_error_iff (s e : String)
    (cs cb : Bool) (gen : Nat → Keypair) (fuel : Nat) (err : StartEndError) :
    generateVanityWalletStartEnd s e cs cb gen fuel = .error err ↔
    validateStartEnd s e = some err := by
  unfold generateVanityWalletStartEnd
  rcases h : validateStartEnd s e with _ | v <;> simp [h]

/-- The multi-worker variant throws exactly the validation error,
independent of the worker events (so before any worker is spawned). -/
theorem generateVanityWalletStartEndMultiWorker_error_iff (s e : String)
    (events : List WorkerEvent) (err : StartEndError) :
    generateVanityWalletStartEndMultiWorker s e events = .error err ↔
    validateStartEnd s e = some err := by
  unfold generateVanityWalletStartEndMultiWorker
  rcases h : validateStartEnd s e with _ | v <;> simp [h]

/-- Counterexample to C4 as stated: the configuration
(`" "`, `""`) has a non-empty start pattern containing a character outside
the Base58 alphabet, so the claim predicts an InvalidPattern error (or, if
`" "` were read as absent, no error at all, since the two patterns are not
both empty) — but the code raises the both-empty error. -/
theorem startEnd_validation_claim_false :
    (" " : String) ≠ "" ∧
    ' ' ∈ (" " : String).data ∧ ' ' ∉ base58Alphabet.data ∧
    validateStartEnd " " "" = some .emptyDualPattern ∧
    validateStartEnd " " "" ≠ some .invalidStartPattern := by
  decide

/-- C4 (amended): with "present" meaning non-blank (non-empty after
trimming whitespace), the two start/end searchers raise an error before any
search iteration / worker event exactly when the configuration is invalid:
the both-blank error when neither pattern is present, an invalid-pattern
error when a present pattern fails Base58 validation (start checked before
end), the too-long error when the combined length of the present patterns
is ≥ 44, and no error on every valid configuration. -/
theorem startEnd_validation_characterization (s e : String) :
    (validateStartEnd s e = none ↔
      (patternPresent s = true ∨ patternPresent e = true) ∧
      (patternPresent s = true → isValidPattern s = true) ∧
      (patternPresent e = true → isValidPattern e = true) ∧
      (if patternPresent s then s.length else 0) +
        (if patternPresent e then e.length else 0) < 44) ∧
    (validateStartEnd s e = some .emptyDualPattern ↔
      patternPresent s = false ∧ patternPresent e = false) ∧
    (validateStartEnd s e = some .invalidStartPattern ↔
      patternPresent s = true ∧ isValidPattern s = false) ∧
    (validateStartEnd s e = some .invalidEndPattern ↔
      patternPresent e = true ∧ isValidPattern e = false ∧
      (patternPresent s = true → isValidPattern s = true)) ∧
    (validateStartEnd s e = some .patternTooLong ↔
      (patternPresent s = true ∨ patternPresent e = true) ∧
      (patternPresent s = true → isValidPattern s = true) ∧
      (patternPresent e = true → isValidPattern e = true) ∧
      44 ≤ (if patternPresent s then s.length else 0) +
        (if patternPresent e then e.length else 0)) ∧
    (∀ (cs cb : Bool) (gen : Nat → Keypair) (fuel : Nat) (err : StartEndError),
      generateVanityWalletStartEnd s e cs cb gen fuel = .error err ↔
      validateStartEnd s e = some err) ∧
    (∀ (events : List WorkerEvent) (err : StartEndError),
      generateVanityWalletStartEndMultiWorker s e events = .error err ↔
      validateStartEnd s e = some err) := by
  refine ⟨?_, ?_, ?_, ?_, ?_,
    fun cs cb gen fuel err => generateVanityWalletStartEnd_error_iff s e cs cb gen fuel err,
    fun events err => generateVanityWalletStartEndMultiWorker_error_iff s e events err⟩ <;>
  · rcases hs : patternPresent s <;> rcases he : patternPresent e <;>
      rcases hvs : isValidPattern s <;> rcases hve : isValidPattern e <;>
      simp [validateStartEnd, hs, he, hvs, hve] <;>
      split <;> simp_all <;> omega

/-- Witness for C4 at concrete configurations. -/
theorem startEnd_validation_characterization_witness :
    validateStartEnd "A" "Z" = none ∧
    validateStartEnd "" "" = some .emptyDualPattern ∧
    validateStartEnd "0" "Z" = some .invalidStartPattern := by
  refine ⟨?_, ?_, ?_⟩
  · exact (startEnd_validation_characterization "A" "Z").1.2
      ⟨Or.inl (by decide), fun _ => by decide, fun _ => by decide, by decide⟩
  · exact (startEnd_validation_characterization "" "").2.1.2 ⟨by decide, by decide⟩
  · exact (startEnd_validation_characterization "0" "Z").2.2.1.2
      ⟨by decide, by decide⟩

/-- Counterexample to C9 as stated: at the worker-loop iteration whose
incremented counter is 10000 and whose address matches, the worker posts
only the success message — no progress report is emitted, because the
worker tests the match before the batch-boundary check. -/
theorem worker_boundary_match_claim_false :
    (9999 + 1) % 10000 = 0 ∧
    workerMatcher
      { pattern := "A", startPattern := "", endPattern := "",
        caseSensitive := true, workerId := 1, searchMode := "startsWith" }
      "AB" = true ∧
    workerStep
      { pattern := "A", startPattern := "", endPattern := "",
        caseSensitive := true, workerId := 1, searchMode := "startsWith" }
      { publicKeyBase58 := "AB", secretKeyBase58 := "sk" } 9999 =
      ([WorkerMsg.success "AB" "sk" "AB" 10000 1], true) ∧
    WorkerMsg.progress 10000 1 ∉
      (workerStep
        { pattern := "A", startPattern := "", endPattern := "",
          caseSensitive := true, workerId := 1, searchMode := "startsWith" }
        { publicKeyBase58 := "AB", secretKeyBase58 := "sk" } 9999).1 := by
  decide

/-- C9 (amended): the single-threaded loops report progress before the
match test — an iteration on a batch boundary (with a callback present)
fires the callback even when it matches — whereas the worker loop tests the
match first: a matching iteration posts only the success message (no
progress report even on a batch boundary), and a non-matching boundary
iteration posts the progress report. -/
theorem progress_emission_order :
    (∀ (matcher : String → Bool) (kp : Keypair) (a : Nat),
        (a + 1) % 10000 = 0 →
        (singleLoopStep matcher true kp a).1 = [a + 1]) ∧
    (∀ (wd : WorkerData) (kp : Keypair) (a : Nat),
        workerMatcher wd (getAddressFromKeypair kp) = true →
        workerStep wd kp a =
          ([WorkerMsg.success (getAddressFromKeypair kp)
              (getPrivateKeyFromKeypair kp) kp.publicKeyBase58 (a + 1)
              wd.workerId], true)) ∧
    (∀ (wd : WorkerData) (kp : Keypair) (a : Nat),
        workerMatcher wd (getAddressFromKeypair kp) = false →
        (a + 1) % 10000 = 0 →
        workerStep wd kp a = ([WorkerMsg.progress (a + 1) wd.workerId], false)) := by
  refine ⟨?_, ?_, ?_⟩
  · intro matcher kp a h
    unfold singleLoopStep
    simp only [h]
    split <;> simp
  · intro wd kp a h
    simp [workerStep, h]
  · intro wd kp a h h10
    simp [workerStep, h, h10]

/-- Witness for C9 (amended) at concrete iterations. -/
theorem progress_emission_order_witness :
    (singleLoopStep (fun _ => true) true
      { publicKeyBase58 := "AB", secretKeyBase58 := "sk" } 9999).1 = [10000] ∧
    workerStep
      { pattern := "A", startPattern := "", endPattern := "",
        caseSensitive := true, workerId := 1, searchMode := "startsWith" }
      { publicKeyBase58 := "AB", secretKeyBase58 := "sk" } 4 =
      ([WorkerMsg.success "AB" "sk" "AB" 5 1], true) ∧
    workerStep
      { pattern := "Z", startPattern := "", endPattern := "",
        caseSensitive := true, workerId := 1, searchMode := "startsWith" }
      { publicKeyBase58 := "AB", secretKeyBase58 := "sk" } 9999 =
      ([WorkerMsg.progress 10000 1], false) := by
  refine ⟨?_, ?_, ?_⟩
  · exact progress_emission_order.1 (fun _ => true)
      { publicKeyBase58 := "AB", secretKeyBase58 := "sk" } 9999 (by decide)
  · exact progress_emission_order.2.1
      { pattern := "A", startPattern := "", endPattern := "",
        caseSensitive := true, workerId := 1, searchMode := "startsWith" }
      { publicKeyBase58 := "AB", secretKeyBase58 := "sk" } 4 (by decide)
  · exact progress_emission_order.2.2
      { pattern := "Z", startPattern := "", endPattern := "",
        caseSensitive := true, workerId := 1, searchMode := "startsWith" }
      { publicKeyBase58 := "AB", secretKeyBase58 := "sk" } 9999 (by decide)
      (by decide)

/-- C5 (evaluating the code at the failing input): a worker error event
arriving before any success makes the pooled search fail with that error —
but the sibling workers are NOT terminated, although the success path
(third conjunct) does terminate them all. -/
theorem worker_error_rejects_without_terminating :
    (runCoordinator [WorkerEvent.error 1 "boom"]).settled =
      some (Except.error "boom") ∧
    (runCoordinator [WorkerEvent.error 1 "boom"]).terminatedAll = false ∧
    (runCoordinator
      [WorkerEvent.message (WorkerMsg.success "A" "sk" "pk" 7 2)]).terminatedAll =
      true := by
  decide

/-- A resolved coordinator ignores every further event: the handler state is
a fixpoint. -/
theorem coordStep_resolved_fixpoint (st : CoordState) (ev : WorkerEvent)
    (h : st.resolved = true) : coordStep st ev = st := by
  cases ev with
  | message m => simp [coordStep, h]
  | error wid errMsg => simp [coordStep, h]

/-- A resolved coordinator ignores every further event sequence. -/
theorem coordFold_resolved_fixpoint (st : CoordState) (h : st.resolved = true) :
    ∀ events : List WorkerEvent, events.foldl coordStep st = st := by
  intro events
  induction events with
  | nil => rfl
  | cons ev rest ih =>
    rw [List.foldl_cons, coordStep_resolved_fixpoint st ev h]
    exact ih

/-- C6: from any not-yet-resolved, not-yet-settled coordinator state, the
first success message resolves exactly once — it sets `resolved`, settles
the promise with the winner extended by the aggregate-so-far — and every
later event sequence leaves the state (result and aggregate counter
included) completely unchanged. -/
theorem coordinator_resolves_once
    (st : CoordState) (address privateKey publicKey : String) (att wid : Nat)
    (rest : List WorkerEvent)
    (h1 : st.resolved = false) (h2 : st.settled = none) :
    (coordStep st (.message (.success address privateKey publicKey att wid))).resolved =
      true ∧
    (coordStep st (.message (.success address privateKey publicKey att wid))).settled =
      some (Except.ok
        { address := address, privateKey := privateKey, publicKey := publicKey,
          attempts := att, workerId := wid,
          totalAttempts := st.totalAttempts + att }) ∧
    (coordStep st (.message (.success address privateKey publicKey att wid))).terminatedAll =
      true ∧
    List.foldl coordStep
      (coordStep st (.message (.success address privateKey publicKey att wid)))
      rest =
      coordStep st (.message (.success address privateKey publicKey att wid)) := by
  have hstep : coordStep st (.message (.success address privateKey publicKey att wid)) =
      { st with
        resolved := true
        terminatedAll := true
        settled := some (Except.ok
          { address := address
            privateKey := privateKey
            publicKey := publicKey
            attempts := att
            workerId := wid
            totalAttempts := st.totalAttempts + att }) } := by
    simp [coordStep, h1, settle, h2]
  rw [hstep]
  exact ⟨rfl, rfl, rfl, coordFold_resolved_fixpoint _ rfl rest⟩

/-- Witness for C6: the first success from the initial state, followed by a
progress message, a second success and an error, all ignored. -/
theorem coordinator_resolves_once_witness :
    (coordStep initialCoordState
      (.message (.success "A" "sk" "pk" 50 1))).resolved = true ∧
    (coordStep initialCoordState
      (.message (.success "A" "sk" "pk" 50 1))).settled =
      some (Except.ok
        { address := "A", privateKey := "sk", publicKey := "pk",
          attempts := 50, workerId := 1,
          totalAttempts := initialCoordState.totalAttempts + 50 }) ∧
    (coordStep initialCoordState
      (.message (.success "A" "sk" "pk" 50 1))).terminatedAll = true ∧
    List.foldl coordStep
      (coordStep initialCoordState (.message (.success "A" "sk" "pk" 50 1)))
      [.message (.progress 10000 2), .message (.success "B" "s2" "p2" 9 3),
       .error 4 "boom"] =
      coordStep initialCoordState (.message (.success "A" "sk" "pk" 50 1)) :=
  coordinator_resolves_once initialCoordState "A" "sk" "pk" 50 1
    [.message (.progress 10000 2), .message (.success "B" "s2" "p2" 9 3),
     .error 4 "boom"] rfl rfl

/-- Folding any progress messages over an unresolved coordinator adds the
flat batch size 10000 each, touching nothing else. -/
theorem coordFold_progress (ps : List (Nat × Nat)) :
    ∀ st : CoordState, st.resolved = false →
      List.foldl coordStep st (progressEvents ps) =
        { st with totalAttempts := st.totalAttempts + 10000 * ps.length } := by
  induction ps with
  | nil =>
    intro st h
    simp [progressEvents]
  | cons p rest ih =>
    intro st h
    obtain ⟨ta, res, setd, term⟩ := st
    simp only [] at h
    subst h
    have hcons : progressEvents (p :: rest) =
        WorkerEvent.message (WorkerMsg.progress p.1 p.2) :: progressEvents rest :=
      rfl
    rw [hcons, List.foldl_cons]
    have hstep : coordStep ⟨ta, false, setd, term⟩
        (WorkerEvent.message (WorkerMsg.progress p.1 p.2)) =
        ⟨ta + 10000, false, setd, term⟩ := by
      simp [coordStep]
    rw [hstep, ih ⟨ta + 10000, false, setd, term⟩ rfl]
    simp [CoordState.mk.injEq]
    omega

/-- C7: over any delivered sequence made of progress messages followed by
the first success, the resolved result's `totalAttempts` is 10000 per
progress message plus the winner's own attempts count; in particular three
one-batch progress reports and a success after 50 attempts yield 30050. -/
theorem pooled_totalAttempts_aggregation :
    (∀ (ps : List (Nat × Nat)) (address privateKey publicKey : String)
        (att wid : Nat),
      (runCoordinator (progressEvents ps ++
          [WorkerEvent.message (WorkerMsg.success address privateKey publicKey att wid)])).settled =
        some (Except.ok
          { address := address, privateKey := privateKey,
            publicKey := publicKey, attempts := att, workerId := wid,
            totalAttempts := 10000 * ps.length + att })) ∧
    (runCoordinator (progressEvents [(10000, 1), (10000, 2), (10000, 3)] ++
        [WorkerEvent.message (WorkerMsg.success "A" "sk" "pk" 50 4)])).settled =
      some (Except.ok
        { address := "A", privateKey := "sk", publicKey := "pk",
          attempts := 50, workerId := 4, totalAttempts := 30050 }) := by
  constructor
  · intro ps address privateKey publicKey att wid
    unfold runCoordinator
    rw [List.foldl_append, coordFold_progress ps initialCoordState rfl]
    simp [coordStep, settle, initialCoordState]
  · decide

/-- A string that trims to empty is never treated as a present pattern. -/
theorem patternPresent_of_trim_empty {s : String} (h : jsTrim s = "") :
    patternPresent s = false := by
  simp [patternPresent, h]

/-- C10: whitespace-only pattern strings are treated exactly like absent
(empty) ones: a whitespace-only start pattern with a whitespace-only end
pattern is rejected at construction with the both-empty error while the
matcher accepts every address, and a whitespace-only start pattern with a
valid non-blank end pattern passes validation (no Base58 validation is ever
applied to the whitespace string) and degrades to a pure suffix search. -/
theorem whitespace_patterns_treated_as_absent
    (ws1 ws2 e : String)
    (h1 : jsTrim ws1 = "") (h2 : jsTrim ws2 = "")
    (h3 : patternPresent e = true) (h4 : isValidPattern e = true)
    (h5 : e.length < 44) :
    validateStartEnd ws1 ws2 = some .emptyDualPattern ∧
    (∀ (address : String) (cs : Bool),
        matchesStartEndPattern address ws1 ws2 cs = true) ∧
    validateStartEnd ws1 e = none ∧
    (∀ (address : String) (cs : Bool),
        matchesStartEndPattern address ws1 e cs =
          (if cs then jsEndsWith address e
           else jsEndsWith (jsToLower address) (jsToLower e))) := by
  have hp1 : patternPresent ws1 = false := patternPresent_of_trim_empty h1
  have hp2 : patternPresent ws2 = false := patternPresent_of_trim_empty h2
  refine ⟨?_, ?_, ?_, ?_⟩
  · simp [validateStartEnd, hp1, hp2]
  · intro address cs
    simp [matchesStartEndPattern, hp1, hp2]
  · simp only [validateStartEnd, hp1, h3, h4]
    simp
    omega
  · intro address cs
    cases cs <;> simp [matchesStartEndPattern, hp1, h3]

/-- Witness for C10 with the one-space and two-space whitespace strings. -/
theorem whitespace_patterns_treated_as_absent_witness :
    validateStartEnd " " "  " = some .emptyDualPattern ∧
    matchesStartEndPattern "AZ" " " "  " true = true ∧
    validateStartEnd " " "Z" = none ∧
    matchesStartEndPattern "AZ" " " "Z" false =
      jsEndsWith (jsToLower "AZ") (jsToLower "Z") ∧
    isValidPattern " " = false := by
  have h := whitespace_patterns_treated_as_absent " " "  " "Z"
    (by decide) (by decide) (by decide) (by decide) (by decide)
  exact ⟨h.1, h.2.1 "AZ" true, h.2.2.1, h.2.2.2 "AZ" false, by decide⟩

end WalletCreate
